import Mathlib

/-!
# Verification of the QR image relay backend (`app.py`)

Shallow embedding of the Flask application in `src/app.py`: a backend that
uploads images to a Mega storage account and relays downloads of public Mega
links.  Python dictionary/JSON values are modelled by `PyVal`; the filesystem
is a set of paths (`FS`); outcomes of external calls (the Mega client library,
`file.save`, `os.remove`, `mimetypes.guess_type`) are supplied by environment
records, and each handler is a pure function from request and environment to a
response, a final filesystem, and the trace of provider-library calls it made.
Exceptions that escape the handler (and are turned into a generic 500 by the
Flask framework) are modelled by a dedicated `uncaught500` response.
-/

/-- Python-style values, as produced by `request.get_json()` and by the Mega
client library's heterogeneous response dictionaries. -/
inductive PyVal where
  | none
  | bool (b : Bool)
  | num (n : Int)
  | str (s : String)
  | list (xs : List PyVal)
  | dict (fields : List (String × PyVal))

/-- Python truthiness (`bool(v)`): `None`, `False`, `0`, `""`, `[]`, `{}` are
falsy, everything else truthy. -/
def PyVal.truthy : PyVal → Bool
  | .none => false
  | .bool b => b
  | .num n => n ≠ 0
  | .str s => s ≠ ""
  | .list xs => !xs.isEmpty
  | .dict fields => !fields.isEmpty

/-- First binding of a key in a dictionary's field list (keys are unique in
every dictionary the provider returns, so first-match is `dict` lookup). -/
def lookupField (k : String) : List (String × PyVal) → Option PyVal
  | [] => Option.none
  | (k2, v) :: rest => if k2 = k then some v else lookupField k rest

/-- Python `v.get(k)`: on a dictionary returns the value or `None`; on any
other value raises `AttributeError` (modelled as `.error`). -/
def pyGet (v : PyVal) (k : String) : Except Unit PyVal :=
  match v with
  | .dict fields => .ok ((lookupField k fields).getD PyVal.none)
  | _ => .error ()

/-- Python `v.get(k, default)` on a dictionary; raises on non-dictionaries. -/
def pyGetD (v : PyVal) (k : String) (dflt : PyVal) : Except Unit PyVal :=
  match v with
  | .dict fields => .ok ((lookupField k fields).getD dflt)
  | _ => .error ()

/-- Python `v[0]`: head of a list (raising `IndexError` when empty), first
character of a string, `KeyError`/`TypeError` on everything else. -/
def pyIndexZero : PyVal → Except Unit PyVal
  | .list [] => .error ()
  | .list (x :: _) => .ok x
  | .str s =>
      match s.data with
      | [] => .error ()
      | c :: _ => .ok (.str (String.mk [c]))
  | _ => .error ()

/-- `s.startswith(p)` on strings, by character lists. -/
def strStartsWith (s p : String) : Bool :=
  p.data.isPrefixOf s.data

/-- `c in s` for a one-character needle, by character lists. -/
def strContainsChar (s : String) (c : Char) : Bool :=
  s.data.contains c

/-- Python `v.startswith(p)`: defined on strings, raises `AttributeError`
otherwise. -/
def pyStartswith (v : PyVal) (p : String) : Except Unit Bool :=
  match v with
  | .str s => .ok (strStartsWith s p)
  | _ => .error ()

/-- Python `c in v` for a one-character needle: substring test on strings,
raises on non-strings (the code only reaches it on strings). -/
def pyContainsChar (v : PyVal) (c : Char) : Except Unit Bool :=
  match v with
  | .str s => .ok (strContainsChar s c)
  | _ => .error ()

/-- The underlying string of a string value (`""` otherwise; only applied
where the value is known to be a string). -/
def PyVal.asString : PyVal → String
  | .str s => s
  | _ => ""

/-- The filesystem: the set of paths that currently exist, as a list. -/
abbrev FS := List String

/-- Creating a file at a path (`file.save`, `download_url` writing to disk). -/
def fsAdd (p : String) (fs : FS) : FS :=
  if p ∈ fs then fs else p :: fs

/-- `os.remove p`. -/
def fsRemove (p : String) (fs : FS) : FS :=
  fs.filter (fun q => q ≠ p)

/-- The `finally` cleanup both handlers use:
`if os.path.exists(p): try: os.remove(p) except OSError: pass` —
existence is checked first, and an `OSError` from removal (modelled by
`removeRaises = true`) is caught and swallowed, leaving the file behind. -/
def cleanupTemp (p : String) (removeRaises : Bool) (fs : FS) : FS :=
  if p ∈ fs then (if removeRaises then fs else fsRemove p fs) else fs

/-- Calls into the Mega client library made by a handler, in order. -/
inductive ProviderCall where
  | login
  | loginAnonymous
  | clientInit
  | upload (path : String)
  | getUploadLink
  | exportLink (handle : PyVal)
  | downloadUrl (url : String)

/-! ## The upload handler (`/upload`, `upload_image` in `app.py`) -/

/-- The multipart request seen by `upload_image`: whether a `file` field is
present, and the file name it carries. -/
structure UploadReq where
  hasFileField : Bool
  filename : String

/-- Environment of one `/upload` request: configuration and the outcomes of
every external call the handler may make.  `getLinkResult` is the outcome of
`m.get_upload_link(...)` (`.error` = it raised), `exportResult` of
`m.export(handle)`; `sanitize` stands for `werkzeug.utils.secure_filename` and
`uuidToken` for the fresh `uuid.uuid4()`, both external collaborators. -/
structure UploadEnv where
  credsPresent : Bool
  loginOk : Bool
  saveOk : Bool
  uploadOk : Bool
  uploadResult : PyVal
  getLinkResult : Except Unit PyVal
  exportResult : Except Unit PyVal
  removeRaises : Bool
  uuidToken : String
  sanitize : String → String

/-- Responses `upload_image` can produce, keyed by the `jsonify` body. -/
inductive UploadResp where
  /-- 400 "Aucun fichier fourni" -/
  | noFile400
  /-- 400 "Nom de fichier vide" -/
  | emptyName400
  /-- 400 "Fichier invalide ou non traité" -/
  | invalid400
  /-- 503 "Échec connexion service stockage" -/
  | unavailable503
  /-- 200 `{"url": link}` -/
  | ok200 (link : PyVal)
  /-- 500 "Erreur interne génération lien post-upload" -/
  | derivation500
  /-- 500 "Erreur interne finalisation lien public." -/
  | finalize500
  /-- 500 "Erreur interne serveur (...)" — the outer `except` -/
  | major500

/-- HTTP status code of an upload response. -/
def UploadResp.status : UploadResp → Nat
  | .noFile400 => 400
  | .emptyName400 => 400
  | .invalid400 => 400
  | .unavailable503 => 503
  | .ok200 _ => 200
  | .derivation500 => 500
  | .finalize500 => 500
  | .major500 => 500

/-- Result of a handler: response, final filesystem, provider-call trace. -/
structure HandlerOut (R : Type) where
  resp : R
  fs : FS
  calls : List ProviderCall

/-- `get_mega_instance()`: `None` without any provider call when credentials
are missing; otherwise `mega.login(...)`, collapsing every exception
(`RequestError` or other) to `None`.  Returns the session option and the
provider calls made. -/
def get_mega_instance (env : UploadEnv) : Option Unit × List ProviderCall :=
  if !env.credsPresent then (Option.none, [])
  else if env.loginOk then (some (), [.login])
  else (Option.none, [.login])

/-- `/tmp/{uuid4()}_UPLOAD_{secure_filename(file.filename)}`. -/
def tempPath (env : UploadEnv) (filename : String) : String :=
  "/tmp/" ++ env.uuidToken ++ "_UPLOAD_" ++ env.sanitize filename

/-- The link-derivation block of `upload_image`:
`public_link = m.get_upload_link(node)`; on any exception, fall back to
`file_handle = node.get('f', [{}])[0].get('h')` and `m.export(file_handle)`
when the handle is truthy (raising `ValueError` otherwise, caught by the inner
`except` which returns the 500 derivation error); finally `if public_link:`
returns 200 with the link, else the 500 finalization error. -/
def extract_file_handle (desc : PyVal) : Except Unit PyVal :=
  match pyGetD desc "f" (PyVal.list [PyVal.dict []]) with
  | .error e => .error e
  | .ok fval =>
      match pyIndexZero fval with
      | .error e => .error e
      | .ok first => pyGet first "h"

/-- Link derivation given the outcomes of `get_upload_link` and `export` and
the `m.upload` descriptor; returns the response and the provider calls made. -/
def derive_public_link (getLinkResult exportResult : Except Unit PyVal)
    (desc : PyVal) : UploadResp × List ProviderCall :=
  match getLinkResult with
  | .ok link =>
      if link.truthy then (.ok200 link, [.getUploadLink])
      else (.finalize500, [.getUploadLink])
  | .error _ =>
      match extract_file_handle desc with
      | .error _ => (.derivation500, [.getUploadLink])
      | .ok h =>
          if h.truthy then
            match exportResult with
            | .ok link =>
                if link.truthy then (.ok200 link, [.getUploadLink, .exportLink h])
                else (.finalize500, [.getUploadLink, .exportLink h])
            | .error _ => (.derivation500, [.getUploadLink, .exportLink h])
          else (.derivation500, [.getUploadLink])

/-- The `try` body of `upload_image` (everything between `file.save` and the
`finally`): save the temp file, connect, `m.upload`, derive the link.  The
outer `except Exception` turns a raising `file.save` or `m.upload` into the
500 major error. -/
def upload_try_body (env : UploadEnv) (temp : String) (fs : FS) :
    UploadResp × FS × List ProviderCall :=
  if !env.saveOk then (.major500, fs, [])
  else
    let fs1 := fsAdd temp fs
    match get_mega_instance env with
    | (Option.none, cs) => (.unavailable503, fs1, cs)
    | (some _, cs) =>
        if !env.uploadOk then (.major500, fs1, cs ++ [.upload temp])
        else
          let dl := derive_public_link env.getLinkResult env.exportResult env.uploadResult
          (dl.1, fs1, cs ++ [.upload temp] ++ dl.2)

/-- The `finally` of `upload_image`: pass the `try` result through, cleaning
the temp path out of the filesystem. -/
def upload_finalize (temp : String) (removeRaises : Bool)
    (r : UploadResp × FS × List ProviderCall) : HandlerOut UploadResp :=
  ⟨r.1, cleanupTemp temp removeRaises r.2.1, r.2.2⟩

/-- The `/upload` handler `upload_image`: the two 400 validations, the
`if file:` truthiness check (a `FileStorage` is truthy iff its filename is
non-empty), then the `try ... finally` with guaranteed cleanup of the temp
path. -/
def upload_image (req : UploadReq) (env : UploadEnv) (fs : FS) :
    HandlerOut UploadResp :=
  if !req.hasFileField then ⟨.noFile400, fs, []⟩
  else if req.filename = "" then ⟨.emptyName400, fs, []⟩
  else if req.filename = "" then ⟨.invalid400, fs, []⟩
  else
    upload_finalize (tempPath env req.filename) env.removeRaises
      (upload_try_body env (tempPath env req.filename) fs)

/-! ## The download relay (`/get_image_from_mega_link` in `app.py`) -/

/-- Error raised by `mega_downloader.download_url`: a Mega `RequestError`
carrying a numeric API code, or any other exception. -/
inductive DlErr where
  | requestError (code : Int)
  | otherError

/-- Environment of one `/get_image_from_mega_link` request: whether the
`Mega()` construction succeeds, the outcome of `download_url` (on success, the
path the provider chose from the object's metadata), whether the download
actually left a file on disk, the `mimetypes.guess_type` table, and whether
`os.remove` raises during cleanup. -/
structure DlEnv where
  initOk : Bool
  downloadResult : Except DlErr String
  downloadWrites : Bool
  guessType : String → Option String
  removeRaises : Bool

/-- Responses of the download relay, keyed by the `jsonify`/`send_file` body.
`uncaught500` is the framework-generated 500 for an exception that escaped
the handler. -/
inductive DlResp where
  /-- 400 "Corps de requête JSON manquant ou invalide" -/
  | badBody400
  /-- 400 "Clé 'mega_url' manquante" -/
  | missingKey400
  /-- 400 "QR code invalide" -/
  | badLink400
  /-- 500 "Erreur interne initialisation service" -/
  | init500
  /-- 500 "Erreur interne: Fichier disparu après téléchargement" -/
  | disappeared500
  /-- 200: `send_file(path, mimetype=..., as_attachment=...)` -/
  | fileResp (path : String) (mimetype : String) (asAttachment : Bool)
  /-- 404 "Fichier non trouvé sur le service de stockage ..." -/
  | notFound404
  /-- 400 "Format de lien Mega incorrect" -/
  | badArg400
  /-- 502 "Erreur du service de stockage (...)" -/
  | upstream502
  /-- 500 "Erreur interne du serveur (...)" -/
  | unexpected500
  /-- Flask's generic 500 for an exception the handler never caught. -/
  | uncaught500

/-- HTTP status code of a download-relay response. -/
def DlResp.status : DlResp → Nat
  | .badBody400 => 400
  | .missingKey400 => 400
  | .badLink400 => 400
  | .init500 => 500
  | .disappeared500 => 500
  | .fileResp _ _ _ => 200
  | .notFound404 => 404
  | .badArg400 => 400
  | .upstream502 => 502
  | .unexpected500 => 500
  | .uncaught500 => 500

/-- The URL format guard, with Python's short-circuit `or`:
`not mega_url.startswith("https://mega.") or '!' not in mega_url`.
Raises (uncaught `AttributeError`) when `mega_url` is not a string. -/
def linkGuardFails (u : PyVal) : Except Unit Bool :=
  match pyStartswith u "https://mega." with
  | .error e => .error e
  | .ok sw =>
      if !sw then .ok true
      else
        match pyContainsChar u '!' with
        | .error e => .error e
        | .ok ct => .ok (!ct)

/-- The content type chosen for a downloaded file:
`mimetypes.guess_type`, replaced by `application/octet-stream` whenever no
type was guessed or the guess is not an `image/` type. -/
def chosenMime (guessed : Option String) : String :=
  match guessed with
  | Option.none => "application/octet-stream"
  | some t => if strStartsWith t "image/" then t else "application/octet-stream"

/-- The download/send `try` body (steps 4–5 of the handler): `download_url`
with its `RequestError`-code mapping (−9 → 404, −2 → 400, other → 502,
non-`RequestError` → 500), the on-disk existence recheck, the content-type
guess, and the inline `send_file`.  Returns the response, the value of
`temp_download_path` (for the `finally`), and the filesystem. -/
def dl_fetch_body (env : DlEnv) (fs : FS) :
    DlResp × Option String × FS :=
  match env.downloadResult with
  | .error (.requestError c) =>
      (if c = -9 then .notFound404 else if c = -2 then .badArg400 else .upstream502,
       Option.none, fs)
  | .error .otherError => (.unexpected500, Option.none, fs)
  | .ok path =>
      let fs1 := if env.downloadWrites then fsAdd path fs else fs
      if path ∈ fs1 then
        (.fileResp path (chosenMime (env.guessType path)) false, some path, fs1)
      else
        (.disappeared500, some path, fs1)

/-- The `finally` of the download relay: pass the `try` result through,
cleaning up the downloaded file when `temp_download_path` is truthy and the
file exists (`if temp_download_path and os.path.exists(...)`), and record the
provider calls made on this path (`Mega()` then `download_url`). -/
def dl_finalize (u : String) (removeRaises : Bool)
    (r : DlResp × Option String × FS) : HandlerOut DlResp :=
  ⟨r.1,
   match r.2.1 with
   | Option.none => r.2.2
   | some p => if p = "" then r.2.2 else cleanupTemp p removeRaises r.2.2,
   [.clientInit, .downloadUrl u]⟩

/-- The `/get_image_from_mega_link` handler: body and `mega_url` presence
checks, the URL format guard (outside any `try` — a non-string `mega_url`
raises uncaught), `Mega()` construction, then the fetch/send `try` with its
`finally` cleanup guarded by `if temp_download_path and os.path.exists(...)`. -/
def get_image_from_mega_link (body : Option PyVal) (env : DlEnv) (fs : FS) :
    HandlerOut DlResp :=
  match body with
  | Option.none => ⟨.badBody400, fs, []⟩
  | some data =>
      if !data.truthy then ⟨.badBody400, fs, []⟩
      else
        match pyGet data "mega_url" with
        | .error _ => ⟨.uncaught500, fs, []⟩
        | .ok mega_url =>
            if !mega_url.truthy then ⟨.missingKey400, fs, []⟩
            else
              match linkGuardFails mega_url with
              | .error _ => ⟨.uncaught500, fs, []⟩
              | .ok true => ⟨.badLink400, fs, []⟩
              | .ok false =>
                  if !env.initOk then ⟨.init500, fs, []⟩
                  else
                    dl_finalize mega_url.asString env.removeRaises
                      (dl_fetch_body env fs)

/-! ## Concrete requests and environments used for closed evaluations -/

/-- A healthy upload environment whose `get_upload_link` raises and whose
store descriptor is the empty dictionary (so no nested handle exists). -/
def envU0 : UploadEnv :=
  { credsPresent := true, loginOk := true, saveOk := true, uploadOk := true,
    uploadResult := PyVal.dict [], getLinkResult := .error (),
    exportResult := .error (), removeRaises := false, uuidToken := "uuid",
    sanitize := fun s => s }

/-- `envU0` with `MEGA_EMAIL`/`MEGA_PASSWORD` missing from the environment. -/
def envU0noCreds : UploadEnv := { envU0 with credsPresent := false }

/-- A well-formed public Mega link. -/
def url0 : String := "https://mega.nz/#!abc!key"

/-- A JSON body carrying a well-formed Mega link. -/
def d0 : PyVal := .dict [("mega_url", .str url0)]

/-- Download environment in which the provider raises `RequestError(-9)`. -/
def envD404 : DlEnv :=
  { initOk := true, downloadResult := .error (.requestError (-9)),
    downloadWrites := true, guessType := fun _ => Option.none,
    removeRaises := false }

/-- Download environment in which the provider stores `/tmp/pic.png`, guessed
as `image/png`. -/
def envD200 : DlEnv :=
  { initOk := true, downloadResult := .ok "/tmp/pic.png", downloadWrites := true,
    guessType := fun p => if p = "/tmp/pic.png" then some "image/png" else Option.none,
    removeRaises := false }

/-- A JSON body binding `mega_url` to the truthy non-string `5`. -/
def dataNum : PyVal := .dict [("mega_url", .num 5)]

/-- A link without the Mega prefix or `!` delimiter. -/
def badUrl : String := "https://not-mega.example/x"

/-- A JSON body carrying `badUrl`. -/
def dBad : PyVal := .dict [("mega_url", .str badUrl)]

/-! ## Helper lemmas -/

theorem not_mem_cleanupTemp (p : String) (fs : FS) : p ∉ cleanupTemp p false fs := by
  unfold cleanupTemp fsRemove
  split
  · simp
  · assumption

theorem mem_fsAdd_self (p : String) (fs : FS) : p ∈ fsAdd p fs := by
  unfold fsAdd
  split
  · assumption
  · exact List.mem_cons_self p fs

/-! ## Claims -/

/-- **C5**: an upload request with no `file` field gets 400, and one whose
file name is the empty string gets 400; in both cases the filesystem is
untouched (no temporary file) and no provider call is made. -/
theorem upload_rejects_missing_or_empty_file (req : UploadReq) (env : UploadEnv) (fs : FS) :
    (req.hasFileField = false →
      upload_image req env fs = ⟨.noFile400, fs, []⟩) ∧
    (req.hasFileField = true → req.filename = "" →
      upload_image req env fs = ⟨.emptyName400, fs, []⟩) := by
  constructor
  · intro h
    simp [upload_image, h]
  · intro h1 h2
    simp [upload_image, h1, h2]

/-- Witness for C5 at concrete requests. -/
theorem upload_rejects_missing_or_empty_file_witness :
    upload_image ⟨false, "x"⟩ envU0 [] = ⟨.noFile400, [], []⟩ ∧
    upload_image ⟨true, ""⟩ envU0 [] = ⟨.emptyName400, [], []⟩ :=
  ⟨(upload_rejects_missing_or_empty_file ⟨false, "x"⟩ envU0 []).1 rfl,
   (upload_rejects_missing_or_empty_file ⟨true, ""⟩ envU0 []).2 rfl rfl⟩

/-- **C6**: with a valid file but absent credentials, `get_mega_instance`
returns `None` without raising and without attempting a login, and the
handler answers 503 (in particular not 500). -/
theorem upload_missing_credentials_503 (req : UploadReq) (env : UploadEnv) (fs : FS)
    (hf : req.hasFileField = true) (hn : req.filename ≠ "")
    (hs : env.saveOk = true) (hc : env.credsPresent = false) :
    get_mega_instance env = (Option.none, []) ∧
    (upload_image req env fs).resp = .unavailable503 ∧
    (upload_image req env fs).resp.status = 503 := by
  have hm : get_mega_instance env = (Option.none, []) := by
    simp [get_mega_instance, hc]
  refine ⟨hm, ?_, ?_⟩ <;>
    simp [upload_image, upload_finalize, upload_try_body, hf, hn, hs, hm, UploadResp.status]

/-- Witness for C6: valid file, credentials missing, response is 503. -/
theorem upload_missing_credentials_503_witness :
    (upload_image ⟨true, "a"⟩ envU0noCreds []).resp = .unavailable503 :=
  (upload_missing_credentials_503 ⟨true, "a"⟩ envU0noCreds [] rfl (by decide) rfl rfl).2.1

/-- **C2**: whenever an upload request passes the file-presence and non-empty
name checks (so a temporary path is in play) and the OS removal does not
fault, the temporary file does not exist after the handler finishes — on
every exit path (success, 503, either 500, or an exception during save,
store, or link derivation). -/
theorem upload_temp_file_removed (req : UploadReq) (env : UploadEnv) (fs : FS)
    (hf : req.hasFileField = true) (hn : req.filename ≠ "")
    (hr : env.removeRaises = false) :
    tempPath env req.filename ∉ (upload_image req env fs).fs := by
  have key : (upload_image req env fs).fs =
      cleanupTemp (tempPath env req.filename) env.removeRaises
        (upload_try_body env (tempPath env req.filename) fs).2.1 := by
    simp [upload_image, upload_finalize, hf, hn]
  rw [key, hr]
  exact not_mem_cleanupTemp _ _

/-- Witness for C2 at a concrete request. -/
theorem upload_temp_file_removed_witness :
    tempPath envU0 "a" ∉ (upload_image ⟨true, "a"⟩ envU0 []).fs :=
  upload_temp_file_removed ⟨true, "a"⟩ envU0 [] rfl (by decide) rfl

/-- **C1**: on the happy upload path the public link comes from a fallback
chain tried in order — first `m.get_upload_link` (a truthy result is returned
directly, with no export call); if it raised, the handle is
`node.get('f', [{}])[0].get('h')` and, when truthy, `m.export` is called with
exactly that handle; and for a descriptor offering neither a usable direct
link nor a nested handle, the handler returns 500 and fabricates no link. -/
theorem upload_link_fallback_chain (req : UploadReq) (env : UploadEnv) (fs : FS)
    (hf : req.hasFileField = true) (hn : req.filename ≠ "")
    (hs : env.saveOk = true) (hc : env.credsPresent = true)
    (hl : env.loginOk = true) (hu : env.uploadOk = true) :
    (∀ link, env.getLinkResult = .ok link → link.truthy = true →
        (upload_image req env fs).resp = .ok200 link ∧
        ∀ h, ProviderCall.exportLink h ∉ (upload_image req env fs).calls) ∧
    (∀ h, env.getLinkResult = .error () →
        extract_file_handle env.uploadResult = .ok h → h.truthy = true →
        ProviderCall.exportLink h ∈ (upload_image req env fs).calls) ∧
    ((env.getLinkResult = .error () ∨
        ∃ v, env.getLinkResult = .ok v ∧ v.truthy = false) →
     (extract_file_handle env.uploadResult = .error () ∨
        ∃ h, extract_file_handle env.uploadResult = .ok h ∧ h.truthy = false) →
        (upload_image req env fs).resp.status = 500 ∧
        ∀ link, (upload_image req env fs).resp ≠ .ok200 link) := by
  have hmega : get_mega_instance env = (some (), [ProviderCall.login]) := by
    simp [get_mega_instance, hc, hl]
  refine ⟨?_, ?_, ?_⟩
  · intro link hres htr
    constructor
    · simp [upload_image, upload_finalize, upload_try_body, hf, hn, hs, hmega, hu,
            derive_public_link, hres, htr]
    · intro h
      simp [upload_image, upload_finalize, upload_try_body, hf, hn, hs, hmega, hu,
            derive_public_link, hres, htr]
  · intro h hres hext htr
    cases hex : env.exportResult with
    | ok link =>
        cases hlt : link.truthy <;>
          simp [upload_image, upload_finalize, upload_try_body, hf, hn, hs,
                hmega, hu, derive_public_link, hres, hext, htr, hex, hlt]
    | error e =>
        simp [upload_image, upload_finalize, upload_try_body, hf, hn, hs,
              hmega, hu, derive_public_link, hres, hext, htr, hex]
  · intro h1 h2
    rcases h1 with herr | ⟨v, hv, hvf⟩
    · rcases h2 with hext | ⟨h, hext, hf2⟩
      · constructor
        · simp [upload_image, upload_finalize, upload_try_body, hf, hn, hs, hmega, hu,
                derive_public_link, herr, hext, UploadResp.status]
        · intro link
          simp [upload_image, upload_finalize, upload_try_body, hf, hn, hs, hmega, hu,
                derive_public_link, herr, hext]
      · constructor
        · simp [upload_image, upload_finalize, upload_try_body, hf, hn, hs, hmega, hu,
                derive_public_link, herr, hext, hf2, UploadResp.status]
        · intro link
          simp [upload_image, upload_finalize, upload_try_body, hf, hn, hs, hmega, hu,
                derive_public_link, herr, hext, hf2]
    · constructor
      · simp [upload_image, upload_finalize, upload_try_body, hf, hn, hs, hmega, hu,
              derive_public_link, hv, hvf, UploadResp.status]
      · intro link
        simp [upload_image, upload_finalize, upload_try_body, hf, hn, hs, hmega, hu,
              derive_public_link, hv, hvf]

/-- Witness for C1: a store descriptor `{}` (no direct link, no nested
handle) makes the handler answer 500 without fabricating a link. -/
theorem upload_link_fallback_chain_witness :
    (upload_image ⟨true, "a"⟩ envU0 []).resp.status = 500 ∧
    ∀ link, (upload_image ⟨true, "a"⟩ envU0 []).resp ≠ .ok200 link :=
  (upload_link_fallback_chain ⟨true, "a"⟩ envU0 [] rfl (by decide) rfl rfl rfl
      rfl).2.2 (Or.inl rfl) (Or.inr ⟨PyVal.none, rfl, rfl⟩)

/-- **C9**: in both handlers the cleanup step is harmless and silent — the
response (and the call trace) never changes when `os.remove` faults, because
the `OSError` is caught and swallowed, and cleanup of an already-absent file
is a no-op since existence is checked before removal. -/
theorem cleanup_guarded_and_response_invariant :
    (∀ (req : UploadReq) (env : UploadEnv) (fs : FS) (b : Bool),
        (upload_image req { env with removeRaises := b } fs).resp =
          (upload_image req env fs).resp ∧
        (upload_image req { env with removeRaises := b } fs).calls =
          (upload_image req env fs).calls) ∧
    (∀ (body : Option PyVal) (env : DlEnv) (fs : FS) (b : Bool),
        (get_image_from_mega_link body { env with removeRaises := b } fs).resp =
          (get_image_from_mega_link body env fs).resp ∧
        (get_image_from_mega_link body { env with removeRaises := b } fs).calls =
          (get_image_from_mega_link body env fs).calls) ∧
    (∀ (p : String) (r : Bool) (fs : FS), p ∉ fs → cleanupTemp p r fs = fs) := by
  refine ⟨?_, ?_, ?_⟩
  · intro req env fs b
    cases env
    constructor <;>
      · simp only [upload_image]
        repeat (first | rfl | split)
  · intro body env fs b
    cases env
    constructor <;>
      · simp only [get_image_from_mega_link]
        repeat (first | rfl | split)
  · intro p r fs hp
    unfold cleanupTemp
    rw [if_neg hp]

/-- Witness for C9: concrete invariance of the responses under a faulting
`os.remove`, and a concrete no-op cleanup of an absent file. -/
theorem cleanup_guarded_and_response_invariant_witness :
    (upload_image ⟨true, "a"⟩ { envU0 with removeRaises := true } []).resp =
      (upload_image ⟨true, "a"⟩ envU0 []).resp ∧
    (get_image_from_mega_link (some d0) { envD200 with removeRaises := true } []).resp =
      (get_image_from_mega_link (some d0) envD200 []).resp ∧
    cleanupTemp "/tmp/gone" true [] = [] :=
  ⟨(cleanup_guarded_and_response_invariant.1 ⟨true, "a"⟩ envU0 [] true).1,
   (cleanup_guarded_and_response_invariant.2.1 (some d0) envD200 [] true).1,
   cleanup_guarded_and_response_invariant.2.2 "/tmp/gone" true [] (by simp)⟩

/-- **C3**: once a download request passes validation, provider errors map to
statuses exactly as coded: `RequestError` code −9 → 404, code −2 → 400, any
other `RequestError` → 502, any other exception (including a failing `Mega()`
construction) → 500; and no provider exception escapes the handler raw. -/
theorem download_error_mapping (data mu : PyVal) (env : DlEnv) (fs : FS)
    (hd : data.truthy = true) (hg : pyGet data "mega_url" = .ok mu)
    (hm : mu.truthy = true) (hguard : linkGuardFails mu = .ok false) :
    (env.initOk = true → env.downloadResult = .error (.requestError (-9)) →
        (get_image_from_mega_link (some data) env fs).resp.status = 404) ∧
    (env.initOk = true → env.downloadResult = .error (.requestError (-2)) →
        (get_image_from_mega_link (some data) env fs).resp.status = 400) ∧
    (env.initOk = true → ∀ c : Int, c ≠ -9 → c ≠ -2 →
        env.downloadResult = .error (.requestError c) →
        (get_image_from_mega_link (some data) env fs).resp.status = 502) ∧
    (env.initOk = true → env.downloadResult = .error .otherError →
        (get_image_from_mega_link (some data) env fs).resp.status = 500) ∧
    (env.initOk = false →
        (get_image_from_mega_link (some data) env fs).resp.status = 500) ∧
    (get_image_from_mega_link (some data) env fs).resp ≠ .uncaught500 := by
  refine ⟨?_, ?_, ?_, ?_, ?_, ?_⟩
  · intro hi hdr
    simp [get_image_from_mega_link, hd, hg, hm, hguard, hi, dl_finalize,
          dl_fetch_body, hdr, DlResp.status]
  · intro hi hdr
    simp [get_image_from_mega_link, hd, hg, hm, hguard, hi, dl_finalize,
          dl_fetch_body, hdr, DlResp.status]
  · intro hi c h9 h2 hdr
    simp [get_image_from_mega_link, hd, hg, hm, hguard, hi, dl_finalize,
          dl_fetch_body, hdr, DlResp.status, h9, h2]
  · intro hi hdr
    simp [get_image_from_mega_link, hd, hg, hm, hguard, hi, dl_finalize,
          dl_fetch_body, hdr, DlResp.status]
  · intro hi
    simp [get_image_from_mega_link, hd, hg, hm, hguard, hi, DlResp.status]
  · cases hi : env.initOk
    · simp [get_image_from_mega_link, hd, hg, hm, hguard, hi]
    · cases hdr : env.downloadResult with
      | error e =>
          cases e with
          | requestError c =>
              simp only [get_image_from_mega_link, hd, hg, hm, hguard, hi,
                         dl_finalize, dl_fetch_body, hdr]
              repeat (first | simp | split)
          | otherError =>
              simp [get_image_from_mega_link, hd, hg, hm, hguard, hi,
                    dl_finalize, dl_fetch_body, hdr]
      | ok p =>
          simp only [get_image_from_mega_link, hd, hg, hm, hguard, hi,
                     dl_finalize, dl_fetch_body, hdr]
          repeat (first | simp | split)

/-- Witness for C3: a "not found" provider error (code −9) yields 404. -/
theorem download_error_mapping_witness :
    (get_image_from_mega_link (some d0) envD404 []).resp.status = 404 :=
  (download_error_mapping d0 (.str url0) envD404 [] rfl rfl rfl rfl).1 rfl rfl

/-- **C7**: a missing/non-JSON body, a falsy body such as `{}`, and a body
without a truthy `mega_url` each get 400; and a link that misses the
`https://mega.` prefix or the `!` delimiter gets 400 — in every case with the
filesystem untouched and no provider call made. -/
theorem download_rejects_invalid_input (env : DlEnv) (fs : FS) :
    (get_image_from_mega_link Option.none env fs = ⟨.badBody400, fs, []⟩) ∧
    (∀ data, data.truthy = false →
        get_image_from_mega_link (some data) env fs = ⟨.badBody400, fs, []⟩) ∧
    (∀ fields, fields ≠ [] → lookupField "mega_url" fields = Option.none →
        get_image_from_mega_link (some (.dict fields)) env fs =
          ⟨.missingKey400, fs, []⟩) ∧
    (∀ data u, data.truthy = true → pyGet data "mega_url" = .ok (.str u) →
        u ≠ "" →
        (strStartsWith u "https://mega." = false ∨ strContainsChar u '!' = false) →
        get_image_from_mega_link (some data) env fs = ⟨.badLink400, fs, []⟩) := by
  refine ⟨rfl, ?_, ?_, ?_⟩
  · intro data h
    simp [get_image_from_mega_link, h]
  · intro fields hne hlk
    have ht : (PyVal.dict fields).truthy = true := by
      cases fields with
      | nil => exact absurd rfl hne
      | cons a l => rfl
    simp [get_image_from_mega_link, ht, pyGet, hlk, PyVal.truthy, hne]
  · intro data u hdt hg hu hfail
    have hmu : (PyVal.str u).truthy = true := by simp [PyVal.truthy, hu]
    have hguard : linkGuardFails (.str u) = .ok true := by
      rcases hfail with hsw | hct
      · simp [linkGuardFails, pyStartswith, hsw]
      · cases hsw2 : strStartsWith u "https://mega."
        · simp [linkGuardFails, pyStartswith, hsw2]
        · simp [linkGuardFails, pyStartswith, pyContainsChar, hsw2, hct]
    simp [get_image_from_mega_link, hdt, hg, hmu, hguard]

/-- Witness for C7: body `{}` and a non-Mega link both answer 400 with no
provider call. -/
theorem download_rejects_invalid_input_witness :
    get_image_from_mega_link (some (.dict [])) envD200 [] = ⟨.badBody400, [], []⟩ ∧
    get_image_from_mega_link (some dBad) envD200 [] = ⟨.badLink400, [], []⟩ :=
  ⟨(download_rejects_invalid_input envD200 []).2.1 (.dict []) rfl,
   (download_rejects_invalid_input envD200 []).2.2.2 dBad badUrl rfl rfl
     (by decide) (Or.inl rfl)⟩

/-- **C8**: for a successfully fetched object the response is `send_file` of
the downloaded path with `as_attachment=False` (inline), its content type the
`mimetypes` guess when that guess is an `image/` type and exactly
`application/octet-stream` when nothing was guessed or the guess is not an
image type. -/
theorem download_mime_guess_inline (data mu : PyVal) (env : DlEnv) (fs : FS)
    (p : String)
    (hd : data.truthy = true) (hg : pyGet data "mega_url" = .ok mu)
    (hm : mu.truthy = true) (hguard : linkGuardFails mu = .ok false)
    (hi : env.initOk = true) (hdr : env.downloadResult = .ok p)
    (hw : env.downloadWrites = true) :
    (env.guessType p = Option.none →
        (get_image_from_mega_link (some data) env fs).resp =
          .fileResp p "application/octet-stream" false) ∧
    (∀ t, env.guessType p = some t → strStartsWith t "image/" = true →
        (get_image_from_mega_link (some data) env fs).resp = .fileResp p t false) ∧
    (∀ t, env.guessType p = some t → strStartsWith t "image/" = false →
        (get_image_from_mega_link (some data) env fs).resp =
          .fileResp p "application/octet-stream" false) := by
  refine ⟨?_, ?_, ?_⟩
  · intro hguess
    simp [get_image_from_mega_link, dl_finalize, dl_fetch_body, chosenMime,
          hd, hg, hm, hguard, hi, hdr, hw, mem_fsAdd_self, hguess]
  · intro t hguess hsw
    simp [get_image_from_mega_link, dl_finalize, dl_fetch_body, chosenMime,
          hd, hg, hm, hguard, hi, hdr, hw, mem_fsAdd_self, hguess, hsw]
  · intro t hguess hsw
    simp [get_image_from_mega_link, dl_finalize, dl_fetch_body, chosenMime,
          hd, hg, hm, hguard, hi, hdr, hw, mem_fsAdd_self, hguess, hsw]

/-- Witness for C8: a fetched `/tmp/pic.png` guessed as `image/png` is served
inline with that content type. -/
theorem download_mime_guess_inline_witness :
    (get_image_from_mega_link (some d0) envD200 []).resp =
      .fileResp "/tmp/pic.png" "image/png" false :=
  (download_mime_guess_inline d0 (.str url0) envD200 [] "/tmp/pic.png"
      rfl rfl rfl rfl rfl rfl rfl).2.1 "image/png" rfl rfl

/-- **C10**: a JSON body binding `mega_url` to a truthy non-string makes the
format guard raise outside every `try`: the request ends as the framework's
generic 500 (not the 400 given to malformed links) and no provider call is
made. -/
theorem download_nonstring_url_uncaught (data mu : PyVal) (env : DlEnv) (fs : FS)
    (hd : data.truthy = true) (hg : pyGet data "mega_url" = .ok mu)
    (hm : mu.truthy = true) (hns : ∀ s, mu ≠ .str s) :
    (get_image_from_mega_link (some data) env fs).resp = .uncaught500 ∧
    (get_image_from_mega_link (some data) env fs).resp.status = 500 ∧
    (get_image_from_mega_link (some data) env fs).resp ≠ .badLink400 ∧
    (get_image_from_mega_link (some data) env fs).calls = [] := by
  have hguard : linkGuardFails mu = .error () := by
    cases mu with
    | str s => exact absurd rfl (hns s)
    | none => simp [PyVal.truthy] at hm
    | bool b => simp [linkGuardFails, pyStartswith]
    | num n => simp [linkGuardFails, pyStartswith]
    | list xs => simp [linkGuardFails, pyStartswith]
    | dict fields => simp [linkGuardFails, pyStartswith]
  refine ⟨?_, ?_, ?_, ?_⟩ <;>
    simp [get_image_from_mega_link, hd, hg, hm, hguard, DlResp.status]

/-- Witness for C10: `{"mega_url": 5}` yields the uncaught-exception 500. -/
theorem download_nonstring_url_uncaught_witness :
    (get_image_from_mega_link (some dataNum) envD200 []).resp = .uncaught500 :=
  (download_nonstring_url_uncaught dataNum (.num 5) envD200 [] rfl rfl rfl
      (fun _ h => PyVal.noConfusion h)).1

/-- **C4 (counterexample)**: at a concrete guard-passing request the fetch is
invoked, yet no anonymous login with the provider ever happens — the
`login_anonymous` call is commented out in the handler, which only constructs
the client object. -/
theorem download_anonymous_session_never_established :
    ProviderCall.downloadUrl url0 ∈
      (get_image_from_mega_link (some d0) envD404 []).calls ∧
    ProviderCall.loginAnonymous ∉
      (get_image_from_mega_link (some d0) envD404 []).calls := by
  have h : (get_image_from_mega_link (some d0) envD404 []).calls =
      [ProviderCall.clientInit, ProviderCall.downloadUrl url0] := rfl
  constructor
  · rw [h]; simp
  · rw [h]; simp

/-- **C4 (amended)**: before invoking the fetch the handler only constructs
an unauthenticated provider client (`Mega()`); it performs no anonymous-login
(and no account-login) provider call on any request — on a guard-passing
request with a working construction, the trace is exactly
`[clientInit, downloadUrl url]`. -/
theorem download_client_init_no_anonymous_login (body : Option PyVal)
    (env : DlEnv) (fs : FS) :
    ProviderCall.loginAnonymous ∉ (get_image_from_mega_link body env fs).calls ∧
    ProviderCall.login ∉ (get_image_from_mega_link body env fs).calls ∧
    (∀ data mu, body = some data → data.truthy = true →
        pyGet data "mega_url" = .ok mu → mu.truthy = true →
        linkGuardFails mu = .ok false → env.initOk = true →
        (get_image_from_mega_link body env fs).calls =
          [ProviderCall.clientInit, ProviderCall.downloadUrl mu.asString]) := by
  have hcases : (get_image_from_mega_link body env fs).calls = [] ∨
      ∃ u, (get_image_from_mega_link body env fs).calls =
        [ProviderCall.clientInit, ProviderCall.downloadUrl u] := by
    unfold get_image_from_mega_link
    repeat' split
    all_goals first
      | exact Or.inl rfl
      | exact Or.inr ⟨_, rfl⟩
  refine ⟨?_, ?_, ?_⟩
  · rcases hcases with h | ⟨u, h⟩ <;> rw [h] <;> simp
  · rcases hcases with h | ⟨u, h⟩ <;> rw [h] <;> simp
  · intro data mu hb hdt hg hmt hguard hi
    subst hb
    simp [get_image_from_mega_link, hdt, hg, hmt, hguard, hi, dl_finalize]

/-- Witness for the amended C4 at a concrete guard-passing request. -/
theorem download_client_init_no_anonymous_login_witness :
    (get_image_from_mega_link (some d0) envD404 []).calls =
      [ProviderCall.clientInit, ProviderCall.downloadUrl (PyVal.str url0).asString] :=
  (download_client_init_no_anonymous_login (some d0) envD404 []).2.2 d0
    (.str url0) rfl rfl rfl rfl rfl rfl
